import Mathlib

/-
  Verification of the task orchestration engine of the on-device browser
  agent: a shallow embedding of Executor.executeTask from
  src/background/agents/executor.ts, together with the shared constants
  and data model from src/shared.  The Planner, the Navigator, the
  inference service and the page bridge are external collaborators; they
  are modelled as oracles supplied by an environment, indexed by call
  count so that every possible sequence of collaborator responses is
  covered.
-/

-- ============================================================================
-- Shared constants (src/shared/constants.ts)
-- ============================================================================

/-- Maximum steps before giving up on a task. -/
def MAX_STEPS : Nat := 15

/-- Maximum replanning attempts when stuck. -/
def MAX_REPLANS : Nat := 2

-- ============================================================================
-- Shared data model (src/shared/types.ts)
-- ============================================================================

/-- current_state part of the Planner output schema. -/
structure CurrentState where
  analysis : String
  memory : List String
deriving DecidableEq

/-- plan part of the Planner output schema. -/
structure PlanBody where
  thought : String
  steps : List String
  success_criteria : String
deriving DecidableEq

/-- Output schema for PlannerAgent. -/
structure PlannerOutput where
  current_state : CurrentState
  plan : PlanBody
deriving DecidableEq

/-- Raw plan body as received from the Planner before the Executor
validates it: the steps field may be missing (undefined or not an
array, collapsed to none in this typed model). -/
structure RawPlanBody where
  thought : String
  steps : Option (List String)
  success_criteria : String
deriving DecidableEq

/-- Raw Planner output before validation: the plan object itself may be
missing. -/
structure RawPlannerOutput where
  current_state : CurrentState
  plan : Option RawPlanBody
deriving DecidableEq

/-- current_state part of the Navigator output schema. -/
structure NavCurrentState where
  page_summary : String
  relevant_elements : List String
  progress : String
deriving DecidableEq

/-- action part of the Navigator output schema. -/
structure NavAction where
  thought : String
  action_type : String
  parameters : List (String × String)
deriving DecidableEq

/-- Output schema for NavigatorAgent. -/
structure NavigatorOutput where
  current_state : NavCurrentState
  action : NavAction
deriving DecidableEq

/-- Result of executing a browser action. -/
structure ActionResult where
  success : Bool
  data : Option String
  error : Option String
deriving DecidableEq

/-- An interactive element on the page. -/
structure InteractiveElement where
  index : Nat
  tag : String
  type : Option String
  text : String
  selector : String
  attributes : List (String × String)
deriving DecidableEq

/-- Serialized DOM state passed to the Navigator agent. -/
structure DOMState where
  url : String
  title : String
  interactiveElements : List InteractiveElement
  pageText : String
deriving DecidableEq

/-- A single step in the execution history. -/
structure AgentStep where
  action : NavAction
  result : ActionResult
  timestamp : Nat
deriving DecidableEq

/-- Context maintained during task execution.  Inside the execution
loop the plan has always been assigned, so it is carried directly. -/
structure AgentContext where
  task : String
  plan : PlannerOutput
  history : List AgentStep
deriving DecidableEq

/-- Executor events for UI updates (the subset emitted by Executor). -/
inductive Event where
  | INIT_START
  | INIT_PROGRESS (progress : Nat)
  | INIT_COMPLETE
  | PLAN_START
  | PLAN_COMPLETE (plan : List String)
  | STEP_START (stepNumber : Nat)
  | STEP_ACTION (action : String) (params : List (String × String))
  | STEP_RESULT (success : Bool) (data : Option String)
  | TASK_COMPLETE (result : String)
  | TASK_FAILED (error : String)
  | REPLAN (reason : String)
deriving DecidableEq

/-- Final outcome of executeTask: the promise either resolves with a
result string or rejects with the message of the thrown error. -/
inductive Outcome where
  | resolved (result : String)
  | rejected (error : String)
deriving DecidableEq

-- ============================================================================
-- JavaScript helpers
-- ============================================================================

/-- JavaScript property lookup on a string record. -/
def lookupParam (ps : List (String × String)) (k : String) : Option String :=
  match ps with
  | [] => none
  | (k1, v) :: rest => if k1 = k then some v else lookupParam rest k

/-- JavaScript x || d on an optional string: both a missing value and
the empty string are falsy and select the default. -/
def jsOr (x : Option String) (d : String) : String :=
  match x with
  | none => d
  | some s => if s = "" then d else s

-- ============================================================================
-- Environment: the external collaborators as oracles
-- ============================================================================

/-- Answer of chrome.tabs.query for the active tab. -/
structure TabInfo where
  url : Option String
  title : Option String
deriving DecidableEq

/-- Behaviour of the external collaborators during one run.  Oracles
are indexed by the number of calls already made on them, which covers
every realizable sequence of collaborator responses.  cancelFrom c
means the cooperative cancellation flag is set before the loop boundary
check of iteration c (and, being monotone, stays set afterwards). -/
structure Env where
  initResult : Except String Unit
  initProgressEvents : List Nat
  createPlanResult : String → Except String RawPlannerOutput
  navigatorResult : Nat → AgentContext → DOMState → Except String NavigatorOutput
  replanResult : Nat → AgentContext → String → Except String PlannerOutput
  domStateResult : Nat → Except String DOMState
  tabQueryResult : Nat → Except String (Option TabInfo)
  executeActionResult : Nat → String → List (String × String) → Except String ActionResult
  now : Nat → Nat
  cancelFrom : Option Nat

/-- Whether the shouldCancel flag is observed as set at the boundary
check of the given loop iteration. -/
def cancelObserved (env : Env) (step : Nat) : Bool :=
  match env.cancelFrom with
  | none => false
  | some c => decide (c ≤ step)

-- ============================================================================
-- Executor: plan validation and fallback (executor.ts lines 91-118)
-- ============================================================================

/-- The minimal fallback plan substituted when plan validation fails. -/
def fallbackPlan : PlannerOutput :=
  { current_state := { analysis := "Task analysis", memory := [] },
    plan := { thought := "Executing task directly",
              steps := ["Analyze the current page", "Complete the requested task"],
              success_criteria := "Task completed successfully" } }

/-- Validation of the initial plan: if the steps of the raw plan are
missing or empty, substitute the fallback plan, otherwise accept the
raw plan as is. -/
def validatePlan (raw : RawPlannerOutput) : PlannerOutput :=
  match raw.plan with
  | none => fallbackPlan
  | some pb =>
    match pb.steps with
    | none => fallbackPlan
    | some [] => fallbackPlan
    | some (s :: rest) =>
      { current_state := raw.current_state,
        plan := { thought := pb.thought, steps := s :: rest,
                  success_criteria := pb.success_criteria } }

-- ============================================================================
-- Executor: degraded DOM state (executor.ts lines 132-165)
-- ============================================================================

/-- Degraded page state synthesized when getDOMState fails, from the
answer of chrome.tabs.query (which may itself throw, caught and
ignored). -/
def degradedDomState (tab : Except String (Option TabInfo)) : DOMState :=
  let tabUrl :=
    match tab with
    | Except.ok (some t) => jsOr t.url "unknown"
    | _ => "unknown"
  let tabTitle :=
    match tab with
    | Except.ok (some t) => jsOr t.title "Unknown"
    | _ => "Unknown page"
  let isRestricted :=
    tabUrl.startsWith "chrome://" ||
    tabUrl.startsWith "chrome-extension://" ||
    tabUrl.startsWith "about:" ||
    tabUrl == "chrome://newtab/" ||
    tabUrl == "unknown"
  { url := tabUrl,
    title := tabTitle,
    interactiveElements := [],
    pageText :=
      if isRestricted then
        "RESTRICTED PAGE: Cannot interact with this page. Use \"navigate\" action to go to a website first (e.g., navigate to https://google.com)."
      else
        "Page content not available. Try navigating to a different page." }

/-- DOM state obtained at the start of a loop iteration: the page
bridge answer when it succeeds, the degraded state otherwise. -/
def getDOMStateModel (env : Env) (k : Nat) : DOMState :=
  match env.domStateResult k with
  | Except.ok s => s
  | Except.error _ => degradedDomState (env.tabQueryResult k)

-- ============================================================================
-- Executor: loop state
-- ============================================================================

/-- Mutable state threaded through the execution loop: the run context
plus the local counters of executeTask and instrumentation counting the
calls made on each collaborator.  plansAccepted records every plan
assigned into the run context, in order. -/
structure LoopSt where
  ctx : AgentContext
  replans : Nat
  consecutiveFailures : Nat
  navCalls : Nat
  replanCalls : Nat
  domCalls : Nat
  actCalls : Nat
  navigatorResets : Nat
  plansAccepted : List PlannerOutput
deriving DecidableEq

/-- Result of the failure handling block: events emitted, the error of
a rejected replan promise if one was thrown, and the updated state. -/
structure HandleOut where
  events : List Event
  thrown : Option String
  st : LoopSt
deriving DecidableEq

-- ============================================================================
-- Executor: action failure handling (executor.ts lines 252-271)
-- ============================================================================

/-- Handling of an action result after STEP_RESULT and the history
append: on failure increment the consecutive failure counter and, at
three or more consecutive failures with replan budget remaining, force
a replan; on success reset the counter. -/
def handleActionResult (env : Env) (result : ActionResult) (st : LoopSt) : HandleOut :=
  if result.success then
    { events := [], thrown := none, st := { st with consecutiveFailures := 0 } }
  else
    let st1 := { st with consecutiveFailures := st.consecutiveFailures + 1 }
    if st1.consecutiveFailures ≥ 3 ∧ st1.replans < MAX_REPLANS then
      let st2 := { st1 with replans := st1.replans + 1,
                            navigatorResets := st1.navigatorResets + 1 }
      match env.replanResult st2.replanCalls st2.ctx (jsOr result.error "Multiple action failures") with
      | Except.ok newPlan =>
        { events := [Event.REPLAN (jsOr result.error "Multiple consecutive failures"),
                     Event.PLAN_COMPLETE newPlan.plan.steps],
          thrown := none,
          st := { st2 with replanCalls := st2.replanCalls + 1,
                           ctx := { st2.ctx with plan := newPlan },
                           plansAccepted := st2.plansAccepted ++ [newPlan],
                           consecutiveFailures := 0 } }
      | Except.error e =>
        { events := [Event.REPLAN (jsOr result.error "Multiple consecutive failures")],
          thrown := some e,
          st := { st2 with replanCalls := st2.replanCalls + 1 } }
    else
      { events := [], thrown := none, st := st1 }

-- ============================================================================
-- Executor: execution loop (executor.ts lines 120-277)
-- ============================================================================

/-- Message of the error thrown on cooperative cancellation. -/
def cancelMsg : String := "Task cancelled by user"

/-- Message emitted and thrown when the step budget is exhausted. -/
def maxStepsMsg : String :=
  "Maximum steps (" ++ toString MAX_STEPS ++ ") exceeded without completing task"

/-- The execution loop, by remaining fuel: fuel is MAX_STEPS minus the
current value of the for loop counter, so the current iteration index
is MAX_STEPS - fuel.  Returns the events emitted from this point on,
the outcome of executeTask, and the final loop state. -/
def execLoop (env : Env) : Nat → LoopSt → List Event × Outcome × LoopSt
  | 0, st =>
    ([Event.TASK_FAILED maxStepsMsg], Outcome.rejected maxStepsMsg, st)
  | fuel + 1, st =>
    let step := MAX_STEPS - (fuel + 1)
    if cancelObserved env step then
      ([], Outcome.rejected cancelMsg, st)
    else
      let domState := getDOMStateModel env st.domCalls
      let st1 := { st with domCalls := st.domCalls + 1 }
      match env.navigatorResult st1.navCalls st1.ctx domState with
      | Except.error errorMsg =>
        let st2 := { st1 with navCalls := st1.navCalls + 1 }
        if st2.replans < MAX_REPLANS then
          let st3 := { st2 with replans := st2.replans + 1,
                                navigatorResets := st2.navigatorResets + 1 }
          match env.replanResult st3.replanCalls st3.ctx errorMsg with
          | Except.ok newPlan =>
            let st4 := { st3 with replanCalls := st3.replanCalls + 1,
                                  ctx := { st3.ctx with plan := newPlan },
                                  plansAccepted := st3.plansAccepted ++ [newPlan] }
            let r := execLoop env fuel st4
            (Event.STEP_START (step + 1) ::
               Event.REPLAN ("Navigator error: " ++ errorMsg) ::
               Event.PLAN_COMPLETE newPlan.plan.steps :: r.1,
             r.2.1, r.2.2)
          | Except.error e =>
            ([Event.STEP_START (step + 1),
              Event.REPLAN ("Navigator error: " ++ errorMsg)],
             Outcome.rejected e,
             { st3 with replanCalls := st3.replanCalls + 1 })
        else
          ([Event.STEP_START (step + 1),
            Event.TASK_FAILED ("Navigator error: " ++ errorMsg)],
           Outcome.rejected errorMsg, st2)
      | Except.ok nav =>
        let st2 := { st1 with navCalls := st1.navCalls + 1 }
        let a := nav.action
        if a.action_type = "done" then
          let result := jsOr (lookupParam a.parameters "result") "Task completed successfully"
          ([Event.STEP_START (step + 1),
            Event.STEP_ACTION a.action_type a.parameters,
            Event.TASK_COMPLETE result],
           Outcome.resolved result, st2)
        else if a.action_type = "fail" then
          let reason := jsOr (lookupParam a.parameters "reason") "Unknown failure"
          if st2.replans < MAX_REPLANS then
            let st3 := { st2 with replans := st2.replans + 1,
                                  navigatorResets := st2.navigatorResets + 1 }
            match env.replanResult st3.replanCalls st3.ctx reason with
            | Except.ok newPlan =>
              let st4 := { st3 with replanCalls := st3.replanCalls + 1,
                                    ctx := { st3.ctx with plan := newPlan },
                                    plansAccepted := st3.plansAccepted ++ [newPlan],
                                    consecutiveFailures := 0 }
              let r := execLoop env fuel st4
              (Event.STEP_START (step + 1) ::
                 Event.STEP_ACTION a.action_type a.parameters ::
                 Event.REPLAN reason ::
                 Event.PLAN_COMPLETE newPlan.plan.steps :: r.1,
               r.2.1, r.2.2)
            | Except.error e =>
              ([Event.STEP_START (step + 1),
                Event.STEP_ACTION a.action_type a.parameters,
                Event.REPLAN reason],
               Outcome.rejected e,
               { st3 with replanCalls := st3.replanCalls + 1 })
          else
            ([Event.STEP_START (step + 1),
              Event.STEP_ACTION a.action_type a.parameters,
              Event.TASK_FAILED reason],
             Outcome.rejected reason, st2)
        else
          let result :=
            match env.executeActionResult st2.actCalls a.action_type a.parameters with
            | Except.ok r => r
            | Except.error msg => { success := false, data := none, error := some msg }
          let st3 := { st2 with actCalls := st2.actCalls + 1 }
          let entry : AgentStep := { action := a, result := result, timestamp := env.now st3.actCalls }
          let st4 := { st3 with ctx := { st3.ctx with history := st3.ctx.history ++ [entry] } }
          let h := handleActionResult env result st4
          match h.thrown with
          | none =>
            let r := execLoop env fuel h.st
            (Event.STEP_START (step + 1) ::
               Event.STEP_ACTION a.action_type a.parameters ::
               Event.STEP_RESULT result.success result.data :: (h.events ++ r.1),
             r.2.1, r.2.2)
          | some e =>
            (Event.STEP_START (step + 1) ::
               Event.STEP_ACTION a.action_type a.parameters ::
               Event.STEP_RESULT result.success result.data :: h.events,
             Outcome.rejected e, h.st)

-- ============================================================================
-- Executor: executeTask (executor.ts lines 51-282)
-- ============================================================================

/-- Cross-run state of the Executor object, with instrumentation
counting reset delegations. -/
structure ExecutorSt where
  isRunning : Bool
  context : Option AgentContext
  plannerResets : Nat
  navigatorResets : Nat
  resetCalls : Nat
deriving DecidableEq

/-- The Executor singleton in its initial state. -/
def initialExecutor : ExecutorSt :=
  { isRunning := false, context := none,
    plannerResets := 0, navigatorResets := 0, resetCalls := 0 }

/-- Executor.reset: delegates reset to the Planner and the Navigator
and clears the run context. -/
def resetExecutor (e : ExecutorSt) : ExecutorSt :=
  { e with plannerResets := e.plannerResets + 1,
           navigatorResets := e.navigatorResets + 1,
           context := none,
           resetCalls := e.resetCalls + 1 }

/-- The body of executeTask inside the try block: model init, planning
with validation, then the execution loop.  Returns the emitted events,
the outcome, and the final loop state when the loop was reached. -/
def executeTaskRaw (env : Env) (task : String) :
    List Event × Outcome × Option LoopSt :=
  let evInit := Event.INIT_START :: env.initProgressEvents.map Event.INIT_PROGRESS
  match env.initResult with
  | Except.error msg =>
    (evInit ++ [Event.TASK_FAILED ("LLM initialization failed: " ++ msg)],
     Outcome.rejected msg, none)
  | Except.ok _ =>
    let evs1 := evInit ++ [Event.INIT_COMPLETE, Event.PLAN_START]
    match env.createPlanResult task with
    | Except.error msg =>
      (evs1 ++ [Event.TASK_FAILED ("Planning failed: " ++ msg)],
       Outcome.rejected msg, none)
    | Except.ok raw =>
      let plan := validatePlan raw
      let st0 : LoopSt :=
        { ctx := { task := task, plan := plan, history := [] },
          replans := 0, consecutiveFailures := 0,
          navCalls := 0, replanCalls := 0, domCalls := 0, actCalls := 0,
          navigatorResets := 0, plansAccepted := [plan] }
      let r := execLoop env MAX_STEPS st0
      (evs1 ++ Event.PLAN_COMPLETE plan.plan.steps :: r.1, r.2.1, some r.2.2)

/-- Result of a call to executeTask. -/
structure RunResult where
  events : List Event
  outcome : Outcome
  exec : ExecutorSt
  loopSt : Option LoopSt

/-- executeTask: rejects immediately when a run is already active
(before the try block, so without finalization); otherwise runs the
body and, in the finally block, clears isRunning and calls reset. -/
def executeTask (env : Env) (task : String) (e : ExecutorSt) : RunResult :=
  if e.isRunning then
    { events := [], outcome := Outcome.rejected "Executor is already running a task",
      exec := e, loopSt := none }
  else
    let r := executeTaskRaw env task
    { events := r.1, outcome := r.2.1,
      exec := resetExecutor { e with isRunning := false },
      loopSt := r.2.2 }

-- ============================================================================
-- Event classifiers
-- ============================================================================

/-- Whether an event is terminal (TASK_COMPLETE or TASK_FAILED). -/
def isTerminal : Event → Bool
  | Event.TASK_COMPLETE _ => true
  | Event.TASK_FAILED _ => true
  | _ => false

/-- Whether an event is a REPLAN event. -/
def isReplanEv : Event → Bool
  | Event.REPLAN _ => true
  | _ => false

/-- Whether an event is a STEP_START event. -/
def isStepStartEv : Event → Bool
  | Event.STEP_START _ => true
  | _ => false

/-- Whether an event is a STEP_ACTION event. -/
def isStepActionEv : Event → Bool
  | Event.STEP_ACTION _ _ => true
  | _ => false

-- ============================================================================
-- Trace predicates
-- ============================================================================

/-- No event of the list is terminal. -/
def noTerm (l : List Event) : Prop := ∀ ev ∈ l, isTerminal ev = false

/-- The list is terminal-free, or a terminal-free list followed by one
final terminal event. -/
def terminalShape (l : List Event) : Prop :=
  noTerm l ∨ ∃ l2 t, l = l2 ++ [t] ∧ noTerm l2 ∧ isTerminal t = true

-- ============================================================================
-- Successor states of one loop iteration (statement abbreviations)
-- ============================================================================

/-- Loop state after a replan triggered by a Navigator error: the
consecutive failure counter is left unchanged. -/
def navErrorReplanSt (st : LoopSt) (newPlan : PlannerOutput) : LoopSt :=
  { st with domCalls := st.domCalls + 1,
            navCalls := st.navCalls + 1,
            replans := st.replans + 1,
            navigatorResets := st.navigatorResets + 1,
            replanCalls := st.replanCalls + 1,
            ctx := { st.ctx with plan := newPlan },
            plansAccepted := st.plansAccepted ++ [newPlan] }

/-- Loop state after a replan triggered by a fail action: the
consecutive failure counter is reset to zero. -/
def failReplanSt (st : LoopSt) (newPlan : PlannerOutput) : LoopSt :=
  { st with domCalls := st.domCalls + 1,
            navCalls := st.navCalls + 1,
            replans := st.replans + 1,
            navigatorResets := st.navigatorResets + 1,
            replanCalls := st.replanCalls + 1,
            ctx := { st.ctx with plan := newPlan },
            plansAccepted := st.plansAccepted ++ [newPlan],
            consecutiveFailures := 0 }

/-- Loop state after a forced replan triggered by the consecutive
failure streak: the counter is reset to zero. -/
def streakReplanSt (st : LoopSt) (newPlan : PlannerOutput) : LoopSt :=
  { st with replans := st.replans + 1,
            navigatorResets := st.navigatorResets + 1,
            replanCalls := st.replanCalls + 1,
            ctx := { st.ctx with plan := newPlan },
            plansAccepted := st.plansAccepted ++ [newPlan],
            consecutiveFailures := 0 }

/-- Loop state after a terminal done action. -/
def doneSt (st : LoopSt) : LoopSt :=
  { st with domCalls := st.domCalls + 1, navCalls := st.navCalls + 1 }

-- ============================================================================
-- Concrete environments for scenarios, counterexamples and witnesses
-- ============================================================================

/-- A Navigator answer performing a click. -/
def clickNav : NavigatorOutput :=
  { current_state := { page_summary := "", relevant_elements := [], progress := "" },
    action := { thought := "", action_type := "click", parameters := [("selector", "#a")] } }

/-- A structurally valid raw plan with one step. -/
def validRaw : RawPlannerOutput :=
  { current_state := { analysis := "a", memory := [] },
    plan := some { thought := "t", steps := some ["step one"], success_criteria := "c" } }

/-- A raw plan whose steps field is missing, so that validation fails. -/
def rawStepsMissing : RawPlannerOutput :=
  { current_state := { analysis := "a", memory := [] },
    plan := some { thought := "t", steps := none, success_criteria := "c" } }

/-- A simple page state. -/
def someDom : DOMState :=
  { url := "https://example.com", title := "Example", interactiveElements := [], pageText := "hello" }

/-- Environment where every collaborator succeeds, the Navigator always
clicks, every action succeeds, and cancellation is never requested. -/
def baseEnv : Env :=
  { initResult := Except.ok (),
    initProgressEvents := [],
    createPlanResult := fun _ => Except.ok validRaw,
    navigatorResult := fun _ _ _ => Except.ok clickNav,
    replanResult := fun _ _ _ => Except.ok fallbackPlan,
    domStateResult := fun _ => Except.ok someDom,
    tabQueryResult := fun _ => Except.ok none,
    executeActionResult := fun _ _ _ => Except.ok { success := true, data := none, error := none },
    now := fun _ => 0,
    cancelFrom := none }

/-- Environment where the Navigator errors on every call. -/
def envNavErr : Env :=
  { baseEnv with navigatorResult := fun _ _ _ => Except.error "boom" }

/-- Environment where cancellation is requested before the first loop
boundary. -/
def envCancel0 : Env := { baseEnv with cancelFrom := some 0 }

/-- Environment where the Navigator errors exactly on its first call
and afterwards always clicks. -/
def envNavErrOnce : Env :=
  { baseEnv with navigatorResult :=
      fun k _ _ => if k = 0 then Except.error "boom" else Except.ok clickNav }

/-- A Navigator answer: done with a present but empty result. -/
def doneEmptyNav : NavigatorOutput :=
  { current_state := { page_summary := "", relevant_elements := [], progress := "" },
    action := { thought := "", action_type := "done", parameters := [("result", "")] } }

/-- Environment where the Navigator immediately finishes with a done
action whose result parameter is the empty string. -/
def envDoneEmpty : Env :=
  { baseEnv with navigatorResult := fun _ _ _ => Except.ok doneEmptyNav }

/-- A Navigator answer navigating to example.com. -/
def navNavigate : NavigatorOutput :=
  { current_state := { page_summary := "", relevant_elements := [], progress := "" },
    action := { thought := "", action_type := "navigate", parameters := [("url", "example.com")] } }

/-- A Navigator answer: done with result Visited example.com. -/
def navDoneVisited : NavigatorOutput :=
  { current_state := { page_summary := "", relevant_elements := [], progress := "" },
    action := { thought := "", action_type := "done", parameters := [("result", "Visited example.com")] } }

/-- Environment for the navigate-then-done scenario. -/
def envVisit : Env :=
  { baseEnv with navigatorResult :=
      fun k _ _ => if k = 0 then Except.ok navNavigate else Except.ok navDoneVisited }

/-- Environment where the initial plan fails validation because its
steps field is missing. -/
def envStepsMissing : Env :=
  { baseEnv with createPlanResult := fun _ => Except.ok rawStepsMissing }

/-- A Navigator answer: a fail action with a reason. -/
def failNav : NavigatorOutput :=
  { current_state := { page_summary := "", relevant_elements := [], progress := "" },
    action := { thought := "", action_type := "fail", parameters := [("reason", "cannot proceed")] } }

/-- Environment where the Navigator always answers with the fail action. -/
def envFail : Env :=
  { baseEnv with navigatorResult := fun _ _ _ => Except.ok failNav }

/-- A sample loop state with a nonzero consecutive failure counter. -/
def sampleLoopSt : LoopSt :=
  { ctx := { task := "t", plan := fallbackPlan, history := [] },
    replans := 0, consecutiveFailures := 2,
    navCalls := 0, replanCalls := 0, domCalls := 0, actCalls := 0,
    navigatorResets := 0, plansAccepted := [fallbackPlan] }

/-- A failed action result with an error message. -/
def failedResult : ActionResult := { success := false, data := none, error := some "nope" }

/-- A successful action result. -/
def okResult : ActionResult := { success := true, data := some "d", error := none }

-- ============================================================================
-- Further derived states and the initial loop state (statement abbreviations)
-- ============================================================================

def replanThrowSt (st : LoopSt) : LoopSt :=
  { st with domCalls := st.domCalls + 1, navCalls := st.navCalls + 1,
            replans := st.replans + 1, navigatorResets := st.navigatorResets + 1,
            replanCalls := st.replanCalls + 1 }

def actionResultAt (env : Env) (st : LoopSt) (a : NavAction) : ActionResult :=
  match env.executeActionResult st.actCalls a.action_type a.parameters with
  | Except.ok r => r
  | Except.error msg => { success := false, data := none, error := some msg }

def actSt (env : Env) (st : LoopSt) (a : NavAction) : LoopSt :=
  { st with domCalls := st.domCalls + 1, navCalls := st.navCalls + 1,
            actCalls := st.actCalls + 1,
            ctx := { st.ctx with history := st.ctx.history ++
              [{ action := a, result := actionResultAt env st a,
                 timestamp := env.now (st.actCalls + 1) }] } }

def initLoopSt (task : String) (raw : RawPlannerOutput) : LoopSt :=
  { ctx := { task := task, plan := validatePlan raw, history := [] },
    replans := 0, consecutiveFailures := 0,
    navCalls := 0, replanCalls := 0, domCalls := 0, actCalls := 0,
    navigatorResets := 0, plansAccepted := [validatePlan raw] }

-- ============================================================================
-- Branch equations and invariants of the execution loop
-- ============================================================================

theorem execLoop_cancel (env : Env) (fuel : Nat) (st : LoopSt)
    (hc : cancelObserved env (MAX_STEPS - (fuel + 1)) = true) :
    execLoop env (fuel + 1) st = ([], Outcome.rejected cancelMsg, st) := by
  simp only [execLoop, hc, if_true]

theorem execLoop_navError_replan (env : Env) (msg : String) (newPlan : PlannerOutput)
    (fuel : Nat) (st : LoopSt)
    (hcan : cancelObserved env (MAX_STEPS - (fuel + 1)) = false)
    (hnav : env.navigatorResult st.navCalls st.ctx (getDOMStateModel env st.domCalls) = Except.error msg)
    (hbudget : st.replans < MAX_REPLANS)
    (hreplan : env.replanResult st.replanCalls st.ctx msg = Except.ok newPlan) :
    execLoop env (fuel + 1) st =
      (Event.STEP_START (MAX_STEPS - (fuel + 1) + 1) ::
         Event.REPLAN ("Navigator error: " ++ msg) ::
         Event.PLAN_COMPLETE newPlan.plan.steps ::
         (execLoop env fuel (navErrorReplanSt st newPlan)).1,
       (execLoop env fuel (navErrorReplanSt st newPlan)).2.1,
       (execLoop env fuel (navErrorReplanSt st newPlan)).2.2) := by
  simp only [execLoop, hcan, hnav, hreplan, hbudget, Bool.false_eq_true, if_false, if_true,
    navErrorReplanSt]

theorem execLoop_navError_replanThrow (env : Env) (msg e : String)
    (fuel : Nat) (st : LoopSt)
    (hcan : cancelObserved env (MAX_STEPS - (fuel + 1)) = false)
    (hnav : env.navigatorResult st.navCalls st.ctx (getDOMStateModel env st.domCalls) = Except.error msg)
    (hbudget : st.replans < MAX_REPLANS)
    (hreplan : env.replanResult st.replanCalls st.ctx msg = Except.error e) :
    execLoop env (fuel + 1) st =
      ([Event.STEP_START (MAX_STEPS - (fuel + 1) + 1),
        Event.REPLAN ("Navigator error: " ++ msg)],
       Outcome.rejected e, replanThrowSt st) := by
  simp only [execLoop, hcan, hnav, hreplan, hbudget, Bool.false_eq_true, if_false, if_true,
    replanThrowSt]

theorem execLoop_navError_noBudget (env : Env) (msg : String) (fuel : Nat) (st : LoopSt)
    (hcan : cancelObserved env (MAX_STEPS - (fuel + 1)) = false)
    (hnav : env.navigatorResult st.navCalls st.ctx (getDOMStateModel env st.domCalls) = Except.error msg)
    (hbudget : ¬ st.replans < MAX_REPLANS) :
    execLoop env (fuel + 1) st =
      ([Event.STEP_START (MAX_STEPS - (fuel + 1) + 1),
        Event.TASK_FAILED ("Navigator error: " ++ msg)],
       Outcome.rejected msg,
       { st with domCalls := st.domCalls + 1, navCalls := st.navCalls + 1 }) := by
  simp only [execLoop, hcan, hnav, Bool.false_eq_true, if_false, if_true]
  rw [if_neg hbudget]

theorem execLoop_done (env : Env) (nav : NavigatorOutput) (fuel : Nat) (st : LoopSt)
    (hcan : cancelObserved env (MAX_STEPS - (fuel + 1)) = false)
    (hnav : env.navigatorResult st.navCalls st.ctx (getDOMStateModel env st.domCalls) = Except.ok nav)
    (hdone : nav.action.action_type = "done") :
    execLoop env (fuel + 1) st =
      ([Event.STEP_START (MAX_STEPS - (fuel + 1) + 1),
        Event.STEP_ACTION nav.action.action_type nav.action.parameters,
        Event.TASK_COMPLETE (jsOr (lookupParam nav.action.parameters "result") "Task completed successfully")],
       Outcome.resolved (jsOr (lookupParam nav.action.parameters "result") "Task completed successfully"),
       doneSt st) := by
  simp only [execLoop, hcan, hnav, hdone, Bool.false_eq_true, if_false, if_true, doneSt]

theorem execLoop_fail_replan (env : Env) (nav : NavigatorOutput) (newPlan : PlannerOutput)
    (fuel : Nat) (st : LoopSt)
    (hcan : cancelObserved env (MAX_STEPS - (fuel + 1)) = false)
    (hnav : env.navigatorResult st.navCalls st.ctx (getDOMStateModel env st.domCalls) = Except.ok nav)
    (hfail : nav.action.action_type = "fail")
    (hbudget : st.replans < MAX_REPLANS)
    (hreplan : env.replanResult st.replanCalls st.ctx
        (jsOr (lookupParam nav.action.parameters "reason") "Unknown failure") = Except.ok newPlan) :
    execLoop env (fuel + 1) st =
      (Event.STEP_START (MAX_STEPS - (fuel + 1) + 1) ::
         Event.STEP_ACTION nav.action.action_type nav.action.parameters ::
         Event.REPLAN (jsOr (lookupParam nav.action.parameters "reason") "Unknown failure") ::
         Event.PLAN_COMPLETE newPlan.plan.steps ::
         (execLoop env fuel (failReplanSt st newPlan)).1,
       (execLoop env fuel (failReplanSt st newPlan)).2.1,
       (execLoop env fuel (failReplanSt st newPlan)).2.2) := by
  simp only [execLoop, hcan, hnav, hfail, hreplan, hbudget, Bool.false_eq_true, if_false, if_true,
    failReplanSt]
  rw [if_neg (by decide : ¬("fail" = "done"))]

theorem execLoop_fail_replanThrow (env : Env) (nav : NavigatorOutput) (e : String)
    (fuel : Nat) (st : LoopSt)
    (hcan : cancelObserved env (MAX_STEPS - (fuel + 1)) = false)
    (hnav : env.navigatorResult st.navCalls st.ctx (getDOMStateModel env st.domCalls) = Except.ok nav)
    (hfail : nav.action.action_type = "fail")
    (hbudget : st.replans < MAX_REPLANS)
    (hreplan : env.replanResult st.replanCalls st.ctx
        (jsOr (lookupParam nav.action.parameters "reason") "Unknown failure") = Except.error e) :
    execLoop env (fuel + 1) st =
      ([Event.STEP_START (MAX_STEPS - (fuel + 1) + 1),
        Event.STEP_ACTION nav.action.action_type nav.action.parameters,
        Event.REPLAN (jsOr (lookupParam nav.action.parameters "reason") "Unknown failure")],
       Outcome.rejected e, replanThrowSt st) := by
  simp only [execLoop, hcan, hnav, hfail, hreplan, hbudget, Bool.false_eq_true, if_false, if_true,
    replanThrowSt]
  rw [if_neg (by decide : ¬("fail" = "done"))]

theorem execLoop_fail_noBudget (env : Env) (nav : NavigatorOutput) (fuel : Nat) (st : LoopSt)
    (hcan : cancelObserved env (MAX_STEPS - (fuel + 1)) = false)
    (hnav : env.navigatorResult st.navCalls st.ctx (getDOMStateModel env st.domCalls) = Except.ok nav)
    (hfail : nav.action.action_type = "fail")
    (hbudget : ¬ st.replans < MAX_REPLANS) :
    execLoop env (fuel + 1) st =
      ([Event.STEP_START (MAX_STEPS - (fuel + 1) + 1),
        Event.STEP_ACTION nav.action.action_type nav.action.parameters,
        Event.TASK_FAILED (jsOr (lookupParam nav.action.parameters "reason") "Unknown failure")],
       Outcome.rejected (jsOr (lookupParam nav.action.parameters "reason") "Unknown failure"),
       { st with domCalls := st.domCalls + 1, navCalls := st.navCalls + 1 }) := by
  simp only [execLoop, hcan, hnav, hfail, Bool.false_eq_true, if_false, if_true]
  rw [if_neg (by decide : ¬("fail" = "done")), if_neg hbudget]

theorem execLoop_act_ok (env : Env) (nav : NavigatorOutput) (fuel : Nat) (st : LoopSt)
    (hcan : cancelObserved env (MAX_STEPS - (fuel + 1)) = false)
    (hnav : env.navigatorResult st.navCalls st.ctx (getDOMStateModel env st.domCalls) = Except.ok nav)
    (hdone : ¬ nav.action.action_type = "done")
    (hfail : ¬ nav.action.action_type = "fail")
    (hth : (handleActionResult env (actionResultAt env st nav.action) (actSt env st nav.action)).thrown = none) :
    execLoop env (fuel + 1) st =
      (Event.STEP_START (MAX_STEPS - (fuel + 1) + 1) ::
         Event.STEP_ACTION nav.action.action_type nav.action.parameters ::
         Event.STEP_RESULT (actionResultAt env st nav.action).success (actionResultAt env st nav.action).data ::
         ((handleActionResult env (actionResultAt env st nav.action) (actSt env st nav.action)).events ++
          (execLoop env fuel (handleActionResult env (actionResultAt env st nav.action) (actSt env st nav.action)).st).1),
       (execLoop env fuel (handleActionResult env (actionResultAt env st nav.action) (actSt env st nav.action)).st).2.1,
       (execLoop env fuel (handleActionResult env (actionResultAt env st nav.action) (actSt env st nav.action)).st).2.2) := by
  simp only [execLoop, hcan, hnav, Bool.false_eq_true, if_false, if_true, actionResultAt, actSt] at hth ⊢
  rw [if_neg hdone, if_neg hfail]
  rw [hth]

theorem execLoop_act_throw (env : Env) (nav : NavigatorOutput) (e : String) (fuel : Nat) (st : LoopSt)
    (hcan : cancelObserved env (MAX_STEPS - (fuel + 1)) = false)
    (hnav : env.navigatorResult st.navCalls st.ctx (getDOMStateModel env st.domCalls) = Except.ok nav)
    (hdone : ¬ nav.action.action_type = "done")
    (hfail : ¬ nav.action.action_type = "fail")
    (hth : (handleActionResult env (actionResultAt env st nav.action) (actSt env st nav.action)).thrown = some e) :
    execLoop env (fuel + 1) st =
      (Event.STEP_START (MAX_STEPS - (fuel + 1) + 1) ::
         Event.STEP_ACTION nav.action.action_type nav.action.parameters ::
         Event.STEP_RESULT (actionResultAt env st nav.action).success (actionResultAt env st nav.action).data ::
         (handleActionResult env (actionResultAt env st nav.action) (actSt env st nav.action)).events,
       Outcome.rejected e,
       (handleActionResult env (actionResultAt env st nav.action) (actSt env st nav.action)).st) := by
  simp only [execLoop, hcan, hnav, Bool.false_eq_true, if_false, if_true, actionResultAt, actSt] at hth ⊢
  rw [if_neg hdone, if_neg hfail]
  rw [hth]

theorem handle_success (env : Env) (result : ActionResult) (st : LoopSt)
    (h : result.success = true) :
    handleActionResult env result st = ⟨[], none, { st with consecutiveFailures := 0 }⟩ := by
  simp only [handleActionResult, h, if_true]

theorem handle_streak (env : Env) (result : ActionResult) (st : LoopSt) (newPlan : PlannerOutput)
    (h : result.success = false)
    (h3 : st.consecutiveFailures + 1 ≥ 3)
    (hb : st.replans < MAX_REPLANS)
    (hrep : env.replanResult st.replanCalls st.ctx
        (jsOr result.error "Multiple action failures") = Except.ok newPlan) :
    handleActionResult env result st =
      ⟨[Event.REPLAN (jsOr result.error "Multiple consecutive failures"),
        Event.PLAN_COMPLETE newPlan.plan.steps], none, streakReplanSt st newPlan⟩ := by
  simp only [handleActionResult, h, Bool.false_eq_true, if_false, streakReplanSt]
  rw [if_pos ⟨h3, hb⟩, hrep]

theorem handle_cases (env : Env) (result : ActionResult) (st : LoopSt) :
    (result.success = true ∧
       handleActionResult env result st = ⟨[], none, { st with consecutiveFailures := 0 }⟩)
  ∨ (result.success = false ∧
       handleActionResult env result st =
         ⟨[], none, { st with consecutiveFailures := st.consecutiveFailures + 1 }⟩)
  ∨ (∃ newPlan, result.success = false ∧ st.replans < MAX_REPLANS ∧
       env.replanResult st.replanCalls st.ctx (jsOr result.error "Multiple action failures") =
         Except.ok newPlan ∧
       handleActionResult env result st =
         ⟨[Event.REPLAN (jsOr result.error "Multiple consecutive failures"),
           Event.PLAN_COMPLETE newPlan.plan.steps], none, streakReplanSt st newPlan⟩)
  ∨ (∃ e, result.success = false ∧ st.replans < MAX_REPLANS ∧
       env.replanResult st.replanCalls st.ctx (jsOr result.error "Multiple action failures") =
         Except.error e ∧
       handleActionResult env result st =
         ⟨[Event.REPLAN (jsOr result.error "Multiple consecutive failures")], some e,
          { st with replans := st.replans + 1,
                    navigatorResets := st.navigatorResets + 1,
                    replanCalls := st.replanCalls + 1,
                    consecutiveFailures := st.consecutiveFailures + 1 }⟩) := by
  by_cases hs : result.success = true
  · exact Or.inl ⟨hs, handle_success env result st hs⟩
  · have hs' : result.success = false := by simpa using hs
    by_cases hg : st.consecutiveFailures + 1 ≥ 3 ∧ st.replans < MAX_REPLANS
    · rcases hre : env.replanResult st.replanCalls st.ctx (jsOr result.error "Multiple action failures") with e | p
      · refine Or.inr (Or.inr (Or.inr ⟨e, hs', hg.2, rfl, ?_⟩))
        simp only [handleActionResult, hs', Bool.false_eq_true, if_false]
        rw [if_pos hg, hre]
      · exact Or.inr (Or.inr (Or.inl ⟨p, hs', hg.2, rfl,
          handle_streak env result st p hs' hg.1 hg.2 hre⟩))
    · refine Or.inr (Or.inl ⟨hs', ?_⟩)
      simp only [handleActionResult, hs', Bool.false_eq_true, if_false]
      rw [if_neg hg]

theorem handle_noTerm (env : Env) (result : ActionResult) (st : LoopSt) :
    noTerm (handleActionResult env result st).events := by
  rcases handle_cases env result st with ⟨_, he⟩ | ⟨_, he⟩ | ⟨p, _, _, _, he⟩ | ⟨e, _, _, _, he⟩ <;>
    rw [he] <;> simp [noTerm, isTerminal]

theorem handle_countP_stepStart2 (env : Env) (result : ActionResult) (st : LoopSt) :
    ((handleActionResult env result st).events).countP isStepStartEv = 0 := by
  rcases handle_cases env result st with ⟨_, he⟩ | ⟨_, he⟩ | ⟨p, _, _, _, he⟩ | ⟨e, _, _, _, he⟩ <;>
    rw [he] <;> simp [List.countP_cons, isStepStartEv]

theorem handle_replans2 (env : Env) (result : ActionResult) (st : LoopSt)
    (h : st.replans ≤ MAX_REPLANS) :
    (handleActionResult env result st).events.countP isReplanEv + st.replans =
      (handleActionResult env result st).st.replans
    ∧ (handleActionResult env result st).st.replans ≤ MAX_REPLANS := by
  rcases handle_cases env result st with ⟨_, he⟩ | ⟨_, he⟩ | ⟨p, _, hb, _, he⟩ | ⟨e, _, hb, _, he⟩ <;>
    rw [he] <;> simp [List.countP_cons, isReplanEv, streakReplanSt] <;> omega

theorem handle_thrown_none (env : Env) (result : ActionResult) (st : LoopSt)
    (hr : ∀ k c r, ∃ p, env.replanResult k c r = Except.ok p) :
    (handleActionResult env result st).thrown = none := by
  rcases handle_cases env result st with ⟨_, he⟩ | ⟨_, he⟩ | ⟨p, _, _, _, he⟩ | ⟨e, _, _, hre, he⟩
  · rw [he]
  · rw [he]
  · rw [he]
  · obtain ⟨p, hp⟩ := hr st.replanCalls st.ctx (jsOr result.error "Multiple action failures")
    rw [hp] at hre
    simp at hre

theorem handle_plans2 (env : Env) (result : ActionResult) (st : LoopSt)
    (P : PlannerOutput → Prop)
    (h1 : ∀ q ∈ st.plansAccepted, P q)
    (h2 : ∀ k c r p, env.replanResult k c r = Except.ok p → P p) :
    ∀ q ∈ (handleActionResult env result st).st.plansAccepted, P q := by
  rcases handle_cases env result st with ⟨_, he⟩ | ⟨_, he⟩ | ⟨p, _, _, hre, he⟩ | ⟨e, _, _, _, he⟩ <;>
    rw [he] <;> intro q hq
  · exact h1 q hq
  · exact h1 q hq
  · simp only [streakReplanSt, List.mem_append, List.mem_singleton] at hq
    rcases hq with hq | hq
    · exact h1 q hq
    · exact hq ▸ h2 _ _ _ _ hre
  · exact h1 q hq

theorem noTerm_nil : noTerm [] := by simp [noTerm]

theorem noTerm_cons {e : Event} {l : List Event} (he : isTerminal e = false)
    (h : noTerm l) : noTerm (e :: l) := by
  intro ev hev
  rcases List.mem_cons.mp hev with rfl | hev
  · exact he
  · exact h ev hev

theorem noTerm_append {l1 l2 : List Event} (h1 : noTerm l1) (h2 : noTerm l2) :
    noTerm (l1 ++ l2) := by
  intro ev hev
  rcases List.mem_append.mp hev with h | h
  · exact h1 ev h
  · exact h2 ev h

theorem noTerm_countP {l : List Event} (h : noTerm l) : l.countP isTerminal = 0 :=
  List.countP_eq_zero.mpr (fun a ha => by simp [h a ha])

theorem terminalShape_single {t : Event} (ht : isTerminal t = true) : terminalShape [t] :=
  Or.inr ⟨[], t, rfl, noTerm_nil, ht⟩

theorem terminalShape_cons {e : Event} {l : List Event} (he : isTerminal e = false)
    (h : terminalShape l) : terminalShape (e :: l) := by
  rcases h with h | ⟨l2, t, rfl, h2, ht⟩
  · exact Or.inl (noTerm_cons he h)
  · exact Or.inr ⟨e :: l2, t, rfl, noTerm_cons he h2, ht⟩

theorem terminalShape_append {l1 l : List Event} (h1 : noTerm l1) (h : terminalShape l) :
    terminalShape (l1 ++ l) := by
  rcases h with h | ⟨l2, t, rfl, h2, ht⟩
  · exact Or.inl (noTerm_append h1 h)
  · exact Or.inr ⟨l1 ++ l2, t, by simp, noTerm_append h1 h2, ht⟩

theorem handle_countP_term (env : Env) (result : ActionResult) (st : LoopSt) :
    (handleActionResult env result st).events.countP isTerminal = 0 :=
  noTerm_countP (handle_noTerm env result st)

theorem execLoop_invariants (env : Env) : ∀ fuel st,
    (execLoop env fuel st).1.countP isStepStartEv ≤ fuel
    ∧ (st.replans ≤ MAX_REPLANS →
        (execLoop env fuel st).1.countP isReplanEv + st.replans ≤ MAX_REPLANS)
    ∧ terminalShape (execLoop env fuel st).1
    ∧ ((∀ k c r p, env.replanResult k c r = Except.ok p → p.plan.steps ≠ []) →
        (∀ p ∈ st.plansAccepted, p.plan.steps ≠ []) →
        ∀ p ∈ (execLoop env fuel st).2.2.plansAccepted, p.plan.steps ≠ [])
    ∧ (env.cancelFrom = none →
        (∀ k c r, ∃ p, env.replanResult k c r = Except.ok p) →
        (execLoop env fuel st).1.countP isTerminal = 1) := by
  intro fuel
  induction fuel with
  | zero =>
    intro st
    refine ⟨?_, ?_, ?_, ?_, ?_⟩
    · simp [execLoop, isStepStartEv]
    · intro h; simp [execLoop, List.countP_cons, isReplanEv]; omega
    · exact terminalShape_single rfl
    · intro _ h2; exact h2
    · intro _ _; simp [execLoop, List.countP_cons, isTerminal]
  | succ f ih =>
    intro st
    by_cases hca : cancelObserved env (MAX_STEPS - (f + 1)) = true
    · rw [execLoop_cancel env f st hca]
      refine ⟨by simp, ?_, Or.inl noTerm_nil, ?_, ?_⟩
      · intro h; simpa using h
      · intro _ h2; exact h2
      · intro hcn hok
        simp [cancelObserved, hcn] at hca
    · have hca' : cancelObserved env (MAX_STEPS - (f + 1)) = false := by
        simpa using hca
      rcases hnav : env.navigatorResult st.navCalls st.ctx (getDOMStateModel env st.domCalls) with msg | nav
      · -- Navigator errored
        by_cases hb : st.replans < MAX_REPLANS
        · rcases hre : env.replanResult st.replanCalls st.ctx msg with e | p
          · -- budget left, replan itself threw
            rw [execLoop_navError_replanThrow env msg e f st hca' hnav hb hre]
            refine ⟨?_, ?_, ?_, ?_, ?_⟩
            · simp [List.countP_cons, isStepStartEv]
            · intro h; simp [List.countP_cons, isReplanEv]; omega
            · exact Or.inl (noTerm_cons rfl (noTerm_cons rfl noTerm_nil))
            · intro _ h2; simpa [replanThrowSt] using h2
            · intro hcn hok
              obtain ⟨p, hp⟩ := hok st.replanCalls st.ctx msg
              rw [hp] at hre
              simp at hre
          · -- budget left, replan succeeded: recursive
            rw [execLoop_navError_replan env msg p f st hca' hnav hb hre]
            refine ⟨?_, ?_, ?_, ?_, ?_⟩
            · simp [List.countP_cons, isStepStartEv]
              exact (ih _).1
            · intro h
              have key := (ih (navErrorReplanSt st p)).2.1 (by simp [navErrorReplanSt]; omega)
              have hrepl : (navErrorReplanSt st p).replans = st.replans + 1 := rfl
              rw [hrepl] at key
              simp [List.countP_cons, isReplanEv]
              omega
            · exact terminalShape_cons rfl (terminalShape_cons rfl
                (terminalShape_cons rfl (ih _).2.2.1))
            · intro hstrict h2
              refine (ih (navErrorReplanSt st p)).2.2.2.1 hstrict ?_
              intro q hq
              simp [navErrorReplanSt, List.mem_append] at hq
              rcases hq with hq | rfl
              · exact h2 q hq
              · exact hstrict _ _ _ _ hre
            · intro hcn hok
              simp [List.countP_cons, isTerminal]
              exact (ih _).2.2.2.2 hcn hok
        · -- budget exhausted: terminal failure
          rw [execLoop_navError_noBudget env msg f st hca' hnav hb]
          refine ⟨?_, ?_, ?_, ?_, ?_⟩
          · simp [List.countP_cons, isStepStartEv]
          · intro h; simp [List.countP_cons, isReplanEv]; omega
          · exact terminalShape_cons rfl (terminalShape_single rfl)
          · intro _ h2; simpa using h2
          · intro _ _; simp [List.countP_cons, isTerminal]
      · -- Navigator produced an action
        by_cases hdone : nav.action.action_type = "done"
        · rw [execLoop_done env nav f st hca' hnav hdone]
          refine ⟨?_, ?_, ?_, ?_, ?_⟩
          · simp [List.countP_cons, isStepStartEv]
          · intro h; simp [List.countP_cons, isReplanEv]; omega
          · exact terminalShape_cons rfl (terminalShape_cons rfl (terminalShape_single rfl))
          · intro _ h2; simpa [doneSt] using h2
          · intro _ _; simp [List.countP_cons, isTerminal]
        · by_cases hfail : nav.action.action_type = "fail"
          · by_cases hb : st.replans < MAX_REPLANS
            · rcases hre : env.replanResult st.replanCalls st.ctx
                  (jsOr (lookupParam nav.action.parameters "reason") "Unknown failure") with e | p
              · rw [execLoop_fail_replanThrow env nav e f st hca' hnav hfail hb hre]
                refine ⟨?_, ?_, ?_, ?_, ?_⟩
                · simp [List.countP_cons, isStepStartEv]
                · intro h; simp [List.countP_cons, isReplanEv]; omega
                · exact Or.inl (noTerm_cons rfl (noTerm_cons rfl (noTerm_cons rfl noTerm_nil)))
                · intro _ h2; simpa [replanThrowSt] using h2
                · intro hcn hok
                  obtain ⟨p, hp⟩ := hok st.replanCalls st.ctx
                    (jsOr (lookupParam nav.action.parameters "reason") "Unknown failure")
                  rw [hp] at hre
                  simp at hre
              · rw [execLoop_fail_replan env nav p f st hca' hnav hfail hb hre]
                refine ⟨?_, ?_, ?_, ?_, ?_⟩
                · simp [List.countP_cons, isStepStartEv]
                  exact (ih _).1
                · intro h
                  have key := (ih (failReplanSt st p)).2.1 (by simp [failReplanSt]; omega)
                  have hrepl : (failReplanSt st p).replans = st.replans + 1 := rfl
                  rw [hrepl] at key
                  simp [List.countP_cons, isReplanEv]
                  omega
                · exact terminalShape_cons rfl (terminalShape_cons rfl (terminalShape_cons rfl
                    (terminalShape_cons rfl (ih _).2.2.1)))
                · intro hstrict h2
                  refine (ih (failReplanSt st p)).2.2.2.1 hstrict ?_
                  intro q hq
                  simp [failReplanSt, List.mem_append] at hq
                  rcases hq with hq | rfl
                  · exact h2 q hq
                  · exact hstrict _ _ _ _ hre
                · intro hcn hok
                  simp [List.countP_cons, isTerminal]
                  exact (ih _).2.2.2.2 hcn hok
            · rw [execLoop_fail_noBudget env nav f st hca' hnav hfail hb]
              refine ⟨?_, ?_, ?_, ?_, ?_⟩
              · simp [List.countP_cons, isStepStartEv]
              · intro h; simp [List.countP_cons, isReplanEv]; omega
              · exact terminalShape_cons rfl (terminalShape_cons rfl (terminalShape_single rfl))
              · intro _ h2; simpa using h2
              · intro _ _; simp [List.countP_cons, isTerminal]
          · rcases hth : (handleActionResult env (actionResultAt env st nav.action)
                (actSt env st nav.action)).thrown with _ | e
            · rw [execLoop_act_ok env nav f st hca' hnav hdone hfail hth]
              refine ⟨?_, ?_, ?_, ?_, ?_⟩
              · simp [List.countP_cons, List.countP_append, isStepStartEv,
                  handle_countP_stepStart2]
                exact (ih _).1
              · intro h
                have hkey := handle_replans2 env (actionResultAt env st nav.action)
                  (actSt env st nav.action) (by simpa [actSt] using h)
                have hrec := (ih ((handleActionResult env (actionResultAt env st nav.action)
                  (actSt env st nav.action)).st)).2.1 hkey.2
                have hrepl : (actSt env st nav.action).replans = st.replans := rfl
                rw [hrepl] at hkey
                simp [List.countP_cons, List.countP_append, isReplanEv]
                omega
              · exact terminalShape_cons rfl (terminalShape_cons rfl (terminalShape_cons rfl
                  (terminalShape_append (handle_noTerm _ _ _) (ih _).2.2.1)))
              · intro hstrict h2
                refine (ih _).2.2.2.1 hstrict ?_
                refine handle_plans2 env _ _ _ ?_ ?_
                · intro q hq
                  exact h2 q (by simpa [actSt] using hq)
                · intro k c r p2 hok2
                  exact hstrict _ _ _ _ hok2
              · intro hcn hok
                simp [List.countP_cons, List.countP_append, isTerminal, handle_countP_term]
                exact (ih _).2.2.2.2 hcn hok
            · rw [execLoop_act_throw env nav e f st hca' hnav hdone hfail hth]
              refine ⟨?_, ?_, ?_, ?_, ?_⟩
              · simp [List.countP_cons, isStepStartEv, handle_countP_stepStart2]
              · intro h
                have hkey := handle_replans2 env (actionResultAt env st nav.action)
                  (actSt env st nav.action) (by simpa [actSt] using h)
                have hrepl : (actSt env st nav.action).replans = st.replans := rfl
                rw [hrepl] at hkey
                simp [List.countP_cons, isReplanEv]
                omega
              · exact Or.inl (noTerm_cons rfl (noTerm_cons rfl (noTerm_cons rfl
                  (handle_noTerm _ _ _))))
              · intro hstrict h2
                refine handle_plans2 env _ _ _ ?_ ?_
                · intro q hq
                  exact h2 q (by simpa [actSt] using hq)
                · intro k c r p2 hok2
                  exact hstrict _ _ _ _ hok2
              · intro hcn hok
                have hnone := handle_thrown_none env (actionResultAt env st nav.action)
                  (actSt env st nav.action) hok
                rw [hth] at hnone
                simp at hnone

theorem executeTask_started (env : Env) (task : String) (e : ExecutorSt)
    (h : e.isRunning = false) :
    (executeTask env task e).events = (executeTaskRaw env task).1
    ∧ (executeTask env task e).outcome = (executeTaskRaw env task).2.1
    ∧ (executeTask env task e).loopSt = (executeTaskRaw env task).2.2
    ∧ (executeTask env task e).exec = resetExecutor { e with isRunning := false } := by
  refine ⟨?_, ?_, ?_, ?_⟩ <;> simp [executeTask, h]

theorem executeTaskRaw_initFail (env : Env) (task msg : String)
    (hin : env.initResult = Except.error msg) :
    executeTaskRaw env task =
      (Event.INIT_START :: env.initProgressEvents.map Event.INIT_PROGRESS ++
         [Event.TASK_FAILED ("LLM initialization failed: " ++ msg)],
       Outcome.rejected msg, none) := by
  simp [executeTaskRaw, hin]

theorem executeTaskRaw_planFail (env : Env) (task msg : String)
    (hin : env.initResult = Except.ok ())
    (hpl : env.createPlanResult task = Except.error msg) :
    executeTaskRaw env task =
      ((Event.INIT_START :: env.initProgressEvents.map Event.INIT_PROGRESS ++
          [Event.INIT_COMPLETE, Event.PLAN_START]) ++
         [Event.TASK_FAILED ("Planning failed: " ++ msg)],
       Outcome.rejected msg, none) := by
  simp [executeTaskRaw, hin, hpl]

theorem executeTaskRaw_run (env : Env) (task : String) (raw : RawPlannerOutput)
    (hin : env.initResult = Except.ok ())
    (hpl : env.createPlanResult task = Except.ok raw) :
    executeTaskRaw env task =
      ((Event.INIT_START :: env.initProgressEvents.map Event.INIT_PROGRESS ++
          [Event.INIT_COMPLETE, Event.PLAN_START]) ++
         Event.PLAN_COMPLETE (validatePlan raw).plan.steps ::
           (execLoop env MAX_STEPS (initLoopSt task raw)).1,
       (execLoop env MAX_STEPS (initLoopSt task raw)).2.1,
       some (execLoop env MAX_STEPS (initLoopSt task raw)).2.2) := by
  simp [executeTaskRaw, hin, hpl, initLoopSt]

theorem validatePlan_nonempty (raw : RawPlannerOutput) : (validatePlan raw).plan.steps ≠ [] := by
  unfold validatePlan
  split
  · simp [fallbackPlan]
  · split
    · simp [fallbackPlan]
    · simp [fallbackPlan]
    · simp

theorem validatePlan_invalid (raw : RawPlannerOutput)
    (h : raw.plan.bind RawPlanBody.steps = none ∨ raw.plan.bind RawPlanBody.steps = some []) :
    validatePlan raw = fallbackPlan := by
  unfold validatePlan
  rcases hp : raw.plan with _ | pb
  · rfl
  · simp only [hp]
    rcases hs : pb.steps with _ | l
    · rfl
    · rcases l with _ | ⟨s, rest⟩
      · rfl
      · simp [hp, hs] at h

theorem noTerm_initProgress (l : List Nat) : noTerm (l.map Event.INIT_PROGRESS) := by
  intro ev hev
  simp only [List.mem_map] at hev
  obtain ⟨x, _, h⟩ := hev
  subst h
  rfl

theorem countP_map_initProgress (p : Event → Bool) (l : List Nat)
    (hp : ∀ n, p (Event.INIT_PROGRESS n) = false) :
    (l.map Event.INIT_PROGRESS).countP p = 0 := by
  refine List.countP_eq_zero.mpr ?_
  intro a ha
  simp only [List.mem_map] at ha
  obtain ⟨x, _, h⟩ := ha
  subst h
  simp [hp]

theorem terminalShape_countP_le {l : List Event} (h : terminalShape l) :
    l.countP isTerminal ≤ 1 := by
  rcases h with h | ⟨l2, t, rfl, h2, ht⟩
  · simp [noTerm_countP h]
  · simp [List.countP_append, List.countP_cons, noTerm_countP h2, ht]

theorem terminalShape_dropLast {l : List Event} (h : terminalShape l) :
    ∀ ev ∈ l.dropLast, isTerminal ev = false := by
  rcases h with h | ⟨l2, t, rfl, h2, ht⟩
  · intro ev hev
    exact h ev (List.dropLast_sublist l |>.subset hev)
  · intro ev hev
    rw [List.dropLast_concat] at hev
    exact h2 ev hev

theorem noTerm_planPrefix (env : Env) :
    noTerm (Event.INIT_START :: env.initProgressEvents.map Event.INIT_PROGRESS ++
      [Event.INIT_COMPLETE, Event.PLAN_START]) :=
  noTerm_cons rfl (noTerm_append (noTerm_initProgress _)
    (noTerm_cons rfl (noTerm_cons rfl noTerm_nil)))

theorem executeTask_terminalShape (env : Env) (task : String) (e : ExecutorSt) :
    terminalShape (executeTask env task e).events := by
  by_cases h : e.isRunning
  · simp only [executeTask, h, if_true]
    exact Or.inl noTerm_nil
  · rw [(executeTask_started env task e (by simpa using h)).1]
    rcases hin : env.initResult with msg | u
    · rw [executeTaskRaw_initFail env task msg hin]
      exact terminalShape_cons rfl
        (terminalShape_append (noTerm_initProgress _) (terminalShape_single rfl))
    · cases u
      rcases hpl : env.createPlanResult task with msg | raw
      · rw [executeTaskRaw_planFail env task msg hin hpl]
        exact terminalShape_append (noTerm_planPrefix env) (terminalShape_single rfl)
      · rw [executeTaskRaw_run env task raw hin hpl]
        exact terminalShape_append (noTerm_planPrefix env)
          (terminalShape_cons rfl (execLoop_invariants env MAX_STEPS (initLoopSt task raw)).2.2.1)

-- ============================================================================
-- Claim theorems
-- ============================================================================

/-- Claim C1 (amended): every run emits at most one terminal event, no event
follows a terminal event, and when the run is not cancelled and no replan
call rejects, exactly one terminal event is emitted. -/
theorem terminal_event_uniqueness (env : Env) (task : String) (e : ExecutorSt) :
    (executeTask env task e).events.countP isTerminal ≤ 1
    ∧ (∀ ev ∈ (executeTask env task e).events.dropLast, isTerminal ev = false)
    ∧ (e.isRunning = false → env.cancelFrom = none →
       (∀ k c r, ∃ p, env.replanResult k c r = Except.ok p) →
       (executeTask env task e).events.countP isTerminal = 1) := by
  refine ⟨terminalShape_countP_le (executeTask_terminalShape env task e),
          terminalShape_dropLast (executeTask_terminalShape env task e), ?_⟩
  intro h hcn hok
  rw [(executeTask_started env task e h).1]
  rcases hin : env.initResult with msg | u
  · rw [executeTaskRaw_initFail env task msg hin]
    simp [List.countP_cons, List.countP_append, isTerminal,
      countP_map_initProgress isTerminal _ (fun n => rfl)]
  · cases u
    rcases hpl : env.createPlanResult task with msg | raw
    · rw [executeTaskRaw_planFail env task msg hin hpl]
      simp [List.countP_cons, List.countP_append, isTerminal,
        countP_map_initProgress isTerminal _ (fun n => rfl)]
    · rw [executeTaskRaw_run env task raw hin hpl]
      simp [List.countP_cons, List.countP_append, isTerminal,
        countP_map_initProgress isTerminal _ (fun n => rfl)]
      exact (execLoop_invariants env MAX_STEPS (initLoopSt task raw)).2.2.2.2 hcn hok

/-- Witness for claim C1: in an environment with no cancellation and an
always succeeding planner, the run emits exactly one terminal event. -/
theorem terminal_event_uniqueness_witness :
    (executeTask baseEnv "t" initialExecutor).events.countP isTerminal = 1 :=
  (terminal_event_uniqueness baseEnv "t" initialExecutor).2.2 rfl rfl
    (fun k c r => ⟨fallbackPlan, rfl⟩)

/-- Counterexample to claim C1 as stated: when cancellation is requested
before the first loop boundary, executeTask rejects with the cancellation
reason but emits no terminal event at all. -/
theorem cancel_path_emits_no_terminal_event :
    (executeTask envCancel0 "t" initialExecutor).events.countP isTerminal = 0
    ∧ (executeTask envCancel0 "t" initialExecutor).outcome = Outcome.rejected cancelMsg :=
  ⟨by decide, by decide⟩

/-- Claim C2: in every run the number of REPLAN events never exceeds
MAX_REPLANS (the three trigger kinds draw from the same budget counter),
and in the scenario where the Navigator errors on every call with budget
2, exactly 2 REPLAN events are emitted and the last event is TASK_FAILED
with the Navigator error. -/
theorem replan_budget_bound :
    (∀ (env : Env) (task : String) (e : ExecutorSt),
       (executeTask env task e).events.countP isReplanEv ≤ MAX_REPLANS)
    ∧ (executeTask envNavErr "t" initialExecutor).events.countP isReplanEv = 2
    ∧ (executeTask envNavErr "t" initialExecutor).events.getLast? =
        some (Event.TASK_FAILED "Navigator error: boom") := by
  refine ⟨?_, by decide, by decide⟩
  intro env task e
  by_cases h : e.isRunning
  · simp [executeTask, h]
  · rw [(executeTask_started env task e (by simpa using h)).1]
    rcases hin : env.initResult with msg | u
    · rw [executeTaskRaw_initFail env task msg hin]
      simp [List.countP_cons, List.countP_append, isReplanEv,
        countP_map_initProgress isReplanEv _ (fun n => rfl)]
    · cases u
      rcases hpl : env.createPlanResult task with msg | raw
      · rw [executeTaskRaw_planFail env task msg hin hpl]
        simp [List.countP_cons, List.countP_append, isReplanEv,
          countP_map_initProgress isReplanEv _ (fun n => rfl)]
      · rw [executeTaskRaw_run env task raw hin hpl]
        have hloop := (execLoop_invariants env MAX_STEPS (initLoopSt task raw)).2.1
          (by simp [initLoopSt])
        have h0 : (initLoopSt task raw).replans = 0 := rfl
        rw [h0] at hloop
        simp [List.countP_cons, List.countP_append, isReplanEv,
          countP_map_initProgress isReplanEv _ (fun n => rfl)]
        omega

/-- Claim C3: in every run the number of STEP_START events never exceeds
MAX_STEPS; when the loop budget is exhausted it emits TASK_FAILED with
the maximum steps message and executeTask rejects with that same error;
in the always-click scenario exactly MAX_STEPS STEP_START events occur
and the run ends this way. -/
theorem step_budget_bound :
    (∀ (env : Env) (task : String) (e : ExecutorSt),
       (executeTask env task e).events.countP isStepStartEv ≤ MAX_STEPS)
    ∧ (∀ (env : Env) (st : LoopSt),
        execLoop env 0 st = ([Event.TASK_FAILED maxStepsMsg], Outcome.rejected maxStepsMsg, st))
    ∧ (executeTask baseEnv "t" initialExecutor).events.countP isStepStartEv = MAX_STEPS
    ∧ (executeTask baseEnv "t" initialExecutor).events.getLast? =
        some (Event.TASK_FAILED maxStepsMsg)
    ∧ (executeTask baseEnv "t" initialExecutor).outcome = Outcome.rejected maxStepsMsg := by
  refine ⟨?_, fun env st => rfl, by decide, by decide, by decide⟩
  intro env task e
  by_cases h : e.isRunning
  · simp [executeTask, h]
  · rw [(executeTask_started env task e (by simpa using h)).1]
    rcases hin : env.initResult with msg | u
    · rw [executeTaskRaw_initFail env task msg hin]
      simp [List.countP_cons, List.countP_append, isStepStartEv,
        countP_map_initProgress isStepStartEv _ (fun n => rfl)]
    · cases u
      rcases hpl : env.createPlanResult task with msg | raw
      · rw [executeTaskRaw_planFail env task msg hin hpl]
        simp [List.countP_cons, List.countP_append, isStepStartEv,
          countP_map_initProgress isStepStartEv _ (fun n => rfl)]
      · rw [executeTaskRaw_run env task raw hin hpl]
        have hloop := (execLoop_invariants env MAX_STEPS (initLoopSt task raw)).1
        simp [List.countP_cons, List.countP_append, isStepStartEv,
          countP_map_initProgress isStepStartEv _ (fun n => rfl)]
        omega

/-- Counterexample to claim C4 as stated: with one Navigator error and
otherwise successful clicks, only 14 actions are executed before the
step budget is exhausted, against 15 without the error: the replan
iteration does consume one iteration of the step budget. -/
theorem replan_iteration_consumes_step_budget :
    (executeTask envNavErrOnce "t" initialExecutor).events.countP isStepActionEv = 14
    ∧ (executeTask envNavErrOnce "t" initialExecutor).events.countP isReplanEv = 1
    ∧ (executeTask envNavErrOnce "t" initialExecutor).outcome = Outcome.rejected maxStepsMsg
    ∧ (executeTask baseEnv "t" initialExecutor).events.countP isStepActionEv = 15 :=
  ⟨by decide, by decide, by decide, by decide⟩

/-- Claim C4 (amended): when the Navigator errors and budget remains, the
Executor consumes one replan, emits REPLAN with the error reason, resets
the Navigator, calls replan, emits PLAN_COMPLETE and continues the loop;
the replan iteration executes no action but does count against the step
budget (the loop continues with one unit of fuel less). -/
theorem navigator_error_replan_continues (env : Env) (msg : String) (newPlan : PlannerOutput)
    (fuel : Nat) (st : LoopSt)
    (hcan : cancelObserved env (MAX_STEPS - (fuel + 1)) = false)
    (hnav : env.navigatorResult st.navCalls st.ctx (getDOMStateModel env st.domCalls) = Except.error msg)
    (hbudget : st.replans < MAX_REPLANS)
    (hreplan : env.replanResult st.replanCalls st.ctx msg = Except.ok newPlan) :
    execLoop env (fuel + 1) st =
      (Event.STEP_START (MAX_STEPS - (fuel + 1) + 1) ::
         Event.REPLAN ("Navigator error: " ++ msg) ::
         Event.PLAN_COMPLETE newPlan.plan.steps ::
         (execLoop env fuel (navErrorReplanSt st newPlan)).1,
       (execLoop env fuel (navErrorReplanSt st newPlan)).2.1,
       (execLoop env fuel (navErrorReplanSt st newPlan)).2.2)
    ∧ (navErrorReplanSt st newPlan).replans = st.replans + 1
    ∧ (navErrorReplanSt st newPlan).navigatorResets = st.navigatorResets + 1
    ∧ (navErrorReplanSt st newPlan).replanCalls = st.replanCalls + 1
    ∧ (navErrorReplanSt st newPlan).ctx.plan = newPlan
    ∧ (navErrorReplanSt st newPlan).actCalls = st.actCalls :=
  ⟨execLoop_navError_replan env msg newPlan fuel st hcan hnav hbudget hreplan,
   rfl, rfl, rfl, rfl, rfl⟩

/-- Witness for claim C4 at a concrete environment and state. -/
theorem navigator_error_replan_continues_witness :
    execLoop envNavErr (14 + 1) (initLoopSt "t" validRaw) =
      (Event.STEP_START (MAX_STEPS - (14 + 1) + 1) ::
         Event.REPLAN ("Navigator error: " ++ "boom") ::
         Event.PLAN_COMPLETE fallbackPlan.plan.steps ::
         (execLoop envNavErr 14 (navErrorReplanSt (initLoopSt "t" validRaw) fallbackPlan)).1,
       (execLoop envNavErr 14 (navErrorReplanSt (initLoopSt "t" validRaw) fallbackPlan)).2.1,
       (execLoop envNavErr 14 (navErrorReplanSt (initLoopSt "t" validRaw) fallbackPlan)).2.2) :=
  (navigator_error_replan_continues envNavErr "boom" fallbackPlan 14 (initLoopSt "t" validRaw)
     (by decide) rfl (by decide) rfl).1

/-- Claim C5: every plan accepted into the run context has non empty
steps (the initial plan by Executor validation with the two step
fallback, replacement plans by the strict Planner contract of the spec,
supplied here as the hstrict hypothesis since planner-agent.ts is not
part of the sources); when validation of the initial plan fails the
Executor substitutes exactly the fallback plan and the run continues
into the loop rather than aborting. -/
theorem accepted_plans_nonempty (env : Env) (task : String) (e : ExecutorSt)
    (hstrict : ∀ k c r p, env.replanResult k c r = Except.ok p → p.plan.steps ≠ []) :
    (∀ ls, (executeTask env task e).loopSt = some ls →
       ∀ p ∈ ls.plansAccepted, p.plan.steps ≠ [])
    ∧ (∀ raw : RawPlannerOutput,
        (raw.plan.bind RawPlanBody.steps = none ∨ raw.plan.bind RawPlanBody.steps = some []) →
        validatePlan raw = fallbackPlan)
    ∧ (∀ raw : RawPlannerOutput, (validatePlan raw).plan.steps ≠ [])
    ∧ (e.isRunning = false → env.initResult = Except.ok () →
       ∀ raw, env.createPlanResult task = Except.ok raw →
       (executeTask env task e).loopSt.isSome = true) := by
  refine ⟨?_, fun raw h => validatePlan_invalid raw h, fun raw => validatePlan_nonempty raw, ?_⟩
  · intro ls hls p hp
    by_cases h : e.isRunning
    · simp [executeTask, h] at hls
    · rw [(executeTask_started env task e (by simpa using h)).2.2.1] at hls
      rcases hin : env.initResult with msg | u
      · rw [executeTaskRaw_initFail env task msg hin] at hls
        simp at hls
      · cases u
        rcases hpl : env.createPlanResult task with msg | raw
        · rw [executeTaskRaw_planFail env task msg hin hpl] at hls
          simp at hls
        · rw [executeTaskRaw_run env task raw hin hpl] at hls
          simp only [Option.some.injEq] at hls
          subst hls
          refine (execLoop_invariants env MAX_STEPS (initLoopSt task raw)).2.2.2.1 hstrict ?_ p hp
          intro q hq
          have hq2 : q = validatePlan raw := by
            simpa [initLoopSt] using hq
          rw [hq2]
          exact validatePlan_nonempty raw
  · intro h hin raw hpl
    rw [(executeTask_started env task e h).2.2.1, executeTaskRaw_run env task raw hin hpl]
    rfl

/-- Witness for claim C5: with a missing steps field the fallback plan is
used and the run still reaches the execution loop. -/
theorem accepted_plans_nonempty_witness :
    (∀ ls, (executeTask envStepsMissing "t" initialExecutor).loopSt = some ls →
       ∀ p ∈ ls.plansAccepted, p.plan.steps ≠ [])
    ∧ (executeTask envStepsMissing "t" initialExecutor).loopSt.isSome = true := by
  have hW : ∀ k c r p, envStepsMissing.replanResult k c r = Except.ok p →
      p.plan.steps ≠ [] := by
    intro k c r p h
    simp only [envStepsMissing, baseEnv] at h
    injection h with h
    rw [← h]
    decide
  exact ⟨(accepted_plans_nonempty envStepsMissing "t" initialExecutor hW).1,
         (accepted_plans_nonempty envStepsMissing "t" initialExecutor hW).2.2.2 rfl rfl
           rawStepsMissing rfl⟩

/-- Claim C6: a successful action result resets the consecutive failure
counter to 0; a failed result that brings the counter to 3 while replan
budget remains forces exactly one replan (one REPLAN event, replans
incremented by one) and resets the counter to 0 afterwards. -/
theorem failure_streak_policy (env : Env) (result : ActionResult) (st : LoopSt)
    (newPlan : PlannerOutput) :
    (result.success = true →
       handleActionResult env result st = ⟨[], none, { st with consecutiveFailures := 0 }⟩)
    ∧ (result.success = false → st.consecutiveFailures + 1 ≥ 3 → st.replans < MAX_REPLANS →
       env.replanResult st.replanCalls st.ctx (jsOr result.error "Multiple action failures") =
         Except.ok newPlan →
       handleActionResult env result st =
         ⟨[Event.REPLAN (jsOr result.error "Multiple consecutive failures"),
           Event.PLAN_COMPLETE newPlan.plan.steps], none, streakReplanSt st newPlan⟩
       ∧ (streakReplanSt st newPlan).consecutiveFailures = 0
       ∧ (streakReplanSt st newPlan).replans = st.replans + 1) :=
  ⟨fun h => handle_success env result st h,
   fun h h3 hb hrep => ⟨handle_streak env result st newPlan h h3 hb hrep, rfl, rfl⟩⟩

/-- Witness for claim C6 at concrete action results and state. -/
theorem failure_streak_policy_witness :
    handleActionResult baseEnv okResult sampleLoopSt =
      ⟨[], none, { sampleLoopSt with consecutiveFailures := 0 }⟩
    ∧ handleActionResult baseEnv failedResult sampleLoopSt =
        ⟨[Event.REPLAN (jsOr failedResult.error "Multiple consecutive failures"),
          Event.PLAN_COMPLETE fallbackPlan.plan.steps], none,
         streakReplanSt sampleLoopSt fallbackPlan⟩ :=
  ⟨(failure_streak_policy baseEnv okResult sampleLoopSt fallbackPlan).1 rfl,
   ((failure_streak_policy baseEnv failedResult sampleLoopSt fallbackPlan).2 rfl
      (by decide) (by decide) rfl).1⟩

/-- Claim C7: when the cancellation flag is observed at a loop boundary
the run terminates immediately with the cancellation rejection and the
state, including the page bridge call counters, is left untouched, so no
further readPageState or performAction calls occur; end to end, a cancel
request before the first boundary makes executeTask reject with the
cancellation reason after zero page bridge calls. -/
theorem cancellation_stops_bridge_calls (env : Env) (task : String) (e : ExecutorSt)
    (fuel : Nat) (st : LoopSt)
    (hc : cancelObserved env (MAX_STEPS - (fuel + 1)) = true) :
    execLoop env (fuel + 1) st = ([], Outcome.rejected cancelMsg, st)
    ∧ (∀ raw, env.cancelFrom = some 0 → e.isRunning = false →
        env.initResult = Except.ok () → env.createPlanResult task = Except.ok raw →
        (executeTask env task e).outcome = Outcome.rejected cancelMsg
        ∧ (executeTask env task e).loopSt.map LoopSt.domCalls = some 0
        ∧ (executeTask env task e).loopSt.map LoopSt.actCalls = some 0) := by
  refine ⟨execLoop_cancel env fuel st hc, ?_⟩
  intro raw hcf h hin hpl
  have h1 := executeTask_started env task e h
  have hrun := executeTaskRaw_run env task raw hin hpl
  have hcz : cancelObserved env (MAX_STEPS - (14 + 1)) = true := by
    simp [cancelObserved, hcf, MAX_STEPS]
  have hms : execLoop env MAX_STEPS (initLoopSt task raw) =
      ([], Outcome.rejected cancelMsg, initLoopSt task raw) :=
    execLoop_cancel env 14 (initLoopSt task raw) hcz
  refine ⟨?_, ?_, ?_⟩
  · rw [h1.2.1, hrun, hms]
  · rw [h1.2.2.1, hrun, hms]
    rfl
  · rw [h1.2.2.1, hrun, hms]
    rfl

/-- Witness for claim C7 at a concrete cancelled environment. -/
theorem cancellation_stops_bridge_calls_witness :
    execLoop envCancel0 (14 + 1) (initLoopSt "t" validRaw) =
      ([], Outcome.rejected cancelMsg, initLoopSt "t" validRaw)
    ∧ (executeTask envCancel0 "t" initialExecutor).outcome = Outcome.rejected cancelMsg
    ∧ (executeTask envCancel0 "t" initialExecutor).loopSt.map LoopSt.domCalls = some 0
    ∧ (executeTask envCancel0 "t" initialExecutor).loopSt.map LoopSt.actCalls = some 0 := by
  have h := cancellation_stops_bridge_calls envCancel0 "t" initialExecutor 14
    (initLoopSt "t" validRaw) (by decide)
  have h2 := h.2 validRaw rfl rfl rfl rfl
  exact ⟨h.1, h2.1, h2.2.1, h2.2.2⟩

/-- Counterexample to claim C8 as stated: a done action whose result
parameter is present but equal to the empty string resolves with the
default success message, not with the parameter value. -/
theorem done_empty_result_uses_default :
    (executeTask envDoneEmpty "t" initialExecutor).outcome =
      Outcome.resolved "Task completed successfully"
    ∧ lookupParam doneEmptyNav.action.parameters "result" = some ""
    ∧ (executeTask envDoneEmpty "t" initialExecutor).outcome ≠ Outcome.resolved "" :=
  ⟨by decide, by decide, by decide⟩

/-- Claim C8 (amended): a done action terminates the run with
TASK_COMPLETE carrying the result parameter when it is present and non
empty, and the default success message when it is absent or empty, and
executeTask resolves with the same string; the navigate then done
scenario resolves with Visited example.com and ends in TASK_COMPLETE. -/
theorem done_action_completes (env : Env) (nav : NavigatorOutput) (fuel : Nat) (st : LoopSt)
    (hcan : cancelObserved env (MAX_STEPS - (fuel + 1)) = false)
    (hnav : env.navigatorResult st.navCalls st.ctx (getDOMStateModel env st.domCalls) = Except.ok nav)
    (hdone : nav.action.action_type = "done") :
    (execLoop env (fuel + 1) st =
      ([Event.STEP_START (MAX_STEPS - (fuel + 1) + 1),
        Event.STEP_ACTION nav.action.action_type nav.action.parameters,
        Event.TASK_COMPLETE (jsOr (lookupParam nav.action.parameters "result")
          "Task completed successfully")],
       Outcome.resolved (jsOr (lookupParam nav.action.parameters "result")
         "Task completed successfully"),
       doneSt st))
    ∧ (∀ s, lookupParam nav.action.parameters "result" = some s → s ≠ "" →
        jsOr (lookupParam nav.action.parameters "result") "Task completed successfully" = s)
    ∧ (lookupParam nav.action.parameters "result" = none →
        jsOr (lookupParam nav.action.parameters "result") "Task completed successfully" =
          "Task completed successfully")
    ∧ (lookupParam nav.action.parameters "result" = some "" →
        jsOr (lookupParam nav.action.parameters "result") "Task completed successfully" =
          "Task completed successfully")
    ∧ (executeTask envVisit "go to example.com" initialExecutor).outcome =
        Outcome.resolved "Visited example.com"
    ∧ (executeTask envVisit "go to example.com" initialExecutor).events.getLast? =
        some (Event.TASK_COMPLETE "Visited example.com") := by
  refine ⟨execLoop_done env nav fuel st hcan hnav hdone, ?_, ?_, ?_, by decide, by decide⟩
  · intro s hs hne
    rw [hs]
    simp [jsOr, hne]
  · intro hs
    rw [hs]
    rfl
  · intro hs
    rw [hs]
    simp [jsOr]

/-- Witness for claim C8 at a concrete done action. -/
theorem done_action_completes_witness :
    execLoop envDoneEmpty (14 + 1) (initLoopSt "t" validRaw) =
      ([Event.STEP_START (MAX_STEPS - (14 + 1) + 1),
        Event.STEP_ACTION doneEmptyNav.action.action_type doneEmptyNav.action.parameters,
        Event.TASK_COMPLETE (jsOr (lookupParam doneEmptyNav.action.parameters "result")
          "Task completed successfully")],
       Outcome.resolved (jsOr (lookupParam doneEmptyNav.action.parameters "result")
         "Task completed successfully"),
       doneSt (initLoopSt "t" validRaw)) :=
  (done_action_completes envDoneEmpty doneEmptyNav 14 (initLoopSt "t" validRaw)
     (by decide) rfl rfl).1

/-- Counterexample to claim C9 as stated: calling executeTask while a run
is already active throws before the try block, so this exit path leaves
isRunning set and never calls reset. -/
theorem already_running_guard_skips_finalizer :
    (executeTask baseEnv "t" { initialExecutor with isRunning := true }).outcome =
      Outcome.rejected "Executor is already running a task"
    ∧ (executeTask baseEnv "t" { initialExecutor with isRunning := true }).exec.isRunning = true
    ∧ (executeTask baseEnv "t" { initialExecutor with isRunning := true }).exec.resetCalls = 0 :=
  ⟨by decide, by decide, by decide⟩

/-- Claim C9 (amended): on every exit path of a run that passes the
single flight guard, the finally block clears isRunning and calls
reset, which nulls the run context and delegates reset to both the
Planner and the Navigator. -/
theorem finalizer_runs_on_started_runs (env : Env) (task : String) (e : ExecutorSt)
    (h : e.isRunning = false) :
    (executeTask env task e).exec.isRunning = false
    ∧ (executeTask env task e).exec.context = none
    ∧ (executeTask env task e).exec.resetCalls = e.resetCalls + 1
    ∧ (executeTask env task e).exec.plannerResets = e.plannerResets + 1
    ∧ (executeTask env task e).exec.navigatorResets = e.navigatorResets + 1 := by
  rw [(executeTask_started env task e h).2.2.2]
  exact ⟨rfl, rfl, rfl, rfl, rfl⟩

/-- Witness for claim C9 on a concrete successful start. -/
theorem finalizer_runs_on_started_runs_witness :
    (executeTask baseEnv "t" initialExecutor).exec.isRunning = false
    ∧ (executeTask baseEnv "t" initialExecutor).exec.context = none
    ∧ (executeTask baseEnv "t" initialExecutor).exec.resetCalls = initialExecutor.resetCalls + 1
    ∧ (executeTask baseEnv "t" initialExecutor).exec.plannerResets =
        initialExecutor.plannerResets + 1
    ∧ (executeTask baseEnv "t" initialExecutor).exec.navigatorResets =
        initialExecutor.navigatorResets + 1 :=
  finalizer_runs_on_started_runs baseEnv "t" initialExecutor rfl

/-- Claim C10: a replan triggered by a fail action or by the failure
streak resets the consecutive failure counter to 0, while a replan
triggered by a Navigator error leaves the counter unchanged, carrying
it over into the iterations of the new plan. -/
theorem replan_failure_counter_frame (env : Env) (msg : String) (nav : NavigatorOutput)
    (result : ActionResult) (newPlan : PlannerOutput) (fuel : Nat) (st : LoopSt) :
    (navErrorReplanSt st newPlan).consecutiveFailures = st.consecutiveFailures
    ∧ (failReplanSt st newPlan).consecutiveFailures = 0
    ∧ (streakReplanSt st newPlan).consecutiveFailures = 0
    ∧ (cancelObserved env (MAX_STEPS - (fuel + 1)) = false →
       env.navigatorResult st.navCalls st.ctx (getDOMStateModel env st.domCalls) =
         Except.error msg →
       st.replans < MAX_REPLANS →
       env.replanResult st.replanCalls st.ctx msg = Except.ok newPlan →
       execLoop env (fuel + 1) st =
         (Event.STEP_START (MAX_STEPS - (fuel + 1) + 1) ::
            Event.REPLAN ("Navigator error: " ++ msg) ::
            Event.PLAN_COMPLETE newPlan.plan.steps ::
            (execLoop env fuel (navErrorReplanSt st newPlan)).1,
          (execLoop env fuel (navErrorReplanSt st newPlan)).2.1,
          (execLoop env fuel (navErrorReplanSt st newPlan)).2.2))
    ∧ (cancelObserved env (MAX_STEPS - (fuel + 1)) = false →
       env.navigatorResult st.navCalls st.ctx (getDOMStateModel env st.domCalls) =
         Except.ok nav →
       nav.action.action_type = "fail" →
       st.replans < MAX_REPLANS →
       env.replanResult st.replanCalls st.ctx
         (jsOr (lookupParam nav.action.parameters "reason") "Unknown failure") =
           Except.ok newPlan →
       execLoop env (fuel + 1) st =
         (Event.STEP_START (MAX_STEPS - (fuel + 1) + 1) ::
            Event.STEP_ACTION nav.action.action_type nav.action.parameters ::
            Event.REPLAN (jsOr (lookupParam nav.action.parameters "reason") "Unknown failure") ::
            Event.PLAN_COMPLETE newPlan.plan.steps ::
            (execLoop env fuel (failReplanSt st newPlan)).1,
          (execLoop env fuel (failReplanSt st newPlan)).2.1,
          (execLoop env fuel (failReplanSt st newPlan)).2.2))
    ∧ (result.success = false → st.consecutiveFailures + 1 ≥ 3 → st.replans < MAX_REPLANS →
       env.replanResult st.replanCalls st.ctx (jsOr result.error "Multiple action failures") =
         Except.ok newPlan →
       handleActionResult env result st =
         ⟨[Event.REPLAN (jsOr result.error "Multiple consecutive failures"),
           Event.PLAN_COMPLETE newPlan.plan.steps], none, streakReplanSt st newPlan⟩) :=
  ⟨rfl, rfl, rfl,
   fun hcan hnav hb hre => execLoop_navError_replan env msg newPlan fuel st hcan hnav hb hre,
   fun hcan hnav hfail hb hre =>
     execLoop_fail_replan env nav newPlan fuel st hcan hnav hfail hb hre,
   fun h h3 hb hre => handle_streak env result st newPlan h h3 hb hre⟩

/-- Witness for claim C10 at a concrete fail action environment. -/
theorem replan_failure_counter_frame_witness :
    execLoop envFail (14 + 1) sampleLoopSt =
      (Event.STEP_START (MAX_STEPS - (14 + 1) + 1) ::
         Event.STEP_ACTION failNav.action.action_type failNav.action.parameters ::
         Event.REPLAN (jsOr (lookupParam failNav.action.parameters "reason") "Unknown failure") ::
         Event.PLAN_COMPLETE fallbackPlan.plan.steps ::
         (execLoop envFail 14 (failReplanSt sampleLoopSt fallbackPlan)).1,
       (execLoop envFail 14 (failReplanSt sampleLoopSt fallbackPlan)).2.1,
       (execLoop envFail 14 (failReplanSt sampleLoopSt fallbackPlan)).2.2)
    ∧ (navErrorReplanSt sampleLoopSt fallbackPlan).consecutiveFailures =
        sampleLoopSt.consecutiveFailures :=
  ⟨(replan_failure_counter_frame envFail "x" failNav failedResult fallbackPlan 14
      sampleLoopSt).2.2.2.2.1 (by decide) rfl rfl (by decide) rfl,
   (replan_failure_counter_frame envFail "x" failNav failedResult fallbackPlan 14
      sampleLoopSt).1⟩
